import Mathlib

/-!
Verification development for the integrity-verification layer of the
alohacore wallet client (src/lib/verifier.js together with the common
Defaults and Utils modules).  The JavaScript source is shallowly embedded:
every function that can throw (preconditions-library checkState and
checkArgument calls, constructor failures in the external crypto library,
the explicit unsupported-version throw) is embedded as a value in
`Except VErr _`; plain return values become `Except.ok`.  External
collaborators (elliptic-curve and hash primitives, HD key derivation,
sjcl symmetric decryption, transaction serialization) are abstracted as a
record of functions, `Crypto`, following section 6 of the specification.
JavaScript truthiness on strings and numbers is made explicit through the
helpers below.
-/

namespace Aloha

/-- JavaScript truthiness for an optional string field: absent and the
empty string are falsy. -/
def truthyS : Option String → Bool
  | none => false
  | some s => !(s == "")

/-- JavaScript truthiness for an optional numeric field: absent and zero
are falsy. -/
def truthyN : Option Int → Bool
  | none => false
  | some n => !(n == 0)

/-- JavaScript falsiness of an optional string, used by strEqual of
checkProposalCreation. -/
def jsFalsyS (o : Option String) : Bool :=
  match o with
  | none => true
  | some s => s == ""

/-- Embedding of the strEqual helper inside Verifier.checkProposalCreation:
two values compare equal when both are falsy or when they are strictly
equal. -/
def strEqual (a b : Option String) : Bool :=
  (jsFalsyS a && jsFalsyS b) || a == b

/-- JavaScript expression a or b for optional strings: yields a when a is
truthy, otherwise b (used by copayer.encryptedName or copayer.name). -/
def jsOrS (a b : Option String) : Option String :=
  if truthyS a then a else b

/-- The error channels of the embedded code, kept distinct as section 7 of
the specification demands: `precondition` for checkState and checkArgument
failures of the preconditions library, `thrown` for failures raised by the
external collaborators or by reading a field of undefined, and
`unsupported` for the explicit legacy-proposal rejection in
checkTxProposalSignature. -/
inductive VErr
  | precondition
  | thrown
  | unsupported
deriving DecidableEq, Repr

/-- The two script types of Constants.SCRIPT_TYPES used by the code. -/
inductive ScriptType
  | P2SH
  | P2PKH
deriving DecidableEq, Repr

/-- One entry of the credentials public-key ring. -/
structure RingEntry where
  xPubKey : String
  requestPubKey : String
deriving DecidableEq, Repr

/-- Wallet membership descriptor (the fields of the credentials object
read by the verifier). -/
structure Credentials where
  network : String
  addressType : ScriptType
  m : Nat
  n : Nat
  publicKeyRing : List RingEntry
  walletPrivKey : Option String
  xPubKey : String
deriving DecidableEq, Repr

/-- Modelled from the spec: `credentials.isComplete()` lives in the
credentials module, which is not among the provided sources.  Section 3 of
the specification states the invariant as all `n` ring entries present and
the threshold fields set. -/
def Credentials.isComplete (c : Credentials) : Bool :=
  c.publicKeyRing.length == c.n && decide (1 ≤ c.m) && decide (c.m ≤ c.n)

/-- A server-supplied address object as consumed by Verifier.checkAddress. -/
structure AddressObj where
  address : String
  path : String
  type : Option ScriptType
  publicKeys : List String
deriving DecidableEq, Repr

/-- The result record of Utils.deriveAddress. -/
structure DerivedAddress where
  address : String
  path : String
  publicKeys : List String
deriving DecidableEq, Repr

/-- A transaction-proposal input as read by Utils.buildTx: only the
satoshis field and the attached public keys matter to this layer. -/
structure TxInput where
  satoshis : Int
  publicKeys : List String
deriving DecidableEq, Repr

/-- A declared proposal output: toAddress or script destination, an
amount, and an optional encrypted message. -/
structure OutputSpec where
  toAddress : Option String
  script : Option String
  message : Option String
  amount : Int
deriving DecidableEq, Repr

/-- Destination of a reconstructed transaction output: the code either
builds a pay-to-address output with t.to or attaches an explicit script
with t.addOutput. -/
inductive TxDest
  | fromAddress (a : String)
  | fromScript (s : String)
deriving DecidableEq, Repr

/-- One output of the reconstructed transaction. -/
structure TxOut where
  dest : TxDest
  satoshis : Int
deriving DecidableEq, Repr

instance : Inhabited TxOut := ⟨⟨TxDest.fromAddress "", 0⟩⟩

/-- The reconstructed transaction returned by Utils.buildTx. -/
structure Tx where
  inputs : List TxInput
  outputs : List TxOut
  fee : Int
deriving DecidableEq, Repr

/-- A roster entry as returned by the server to checkCopayers; every
field may be missing. -/
structure Copayer where
  name : Option String
  encryptedName : Option String
  xPubKey : Option String
  requestPubKey : Option String
  signature : Option String
deriving DecidableEq, Repr

/-- An externally supplied payment-protocol target for checkPaypro. -/
structure PayproOpts where
  toAddress : String
  amount : Int
deriving DecidableEq, Repr

/-- The transaction proposal: the fields of txp read by the verifier and
by Utils.buildTx. -/
structure Txp where
  version : Int
  creatorId : String
  addressType : ScriptType
  requiredSignatures : Nat
  inputs : List TxInput
  toAddress : Option String
  amount : Option Int
  outputs : Option (List OutputSpec)
  fee : Int
  changeAddress : Option AddressObj
  outputOrder : List Nat
  proposalSignature : String
  proposalSignaturePubKey : Option String
  proposalSignaturePubKeySig : Option String
  message : Option String
  payProUrl : Option String
  feePerKb : Option Int
  customData : Option String
deriving DecidableEq, Repr

/-- The submission arguments compared against a stored proposal by
Verifier.checkProposalCreation. -/
structure SubmitArgs where
  outputs : List OutputSpec
  changeAddress : Option String
  feePerKb : Option Int
  payProUrl : Option String
  message : Option String
  customData : Option String
deriving DecidableEq, Repr

/-- Modelled from the spec (section 6): the external crypto-provider and
serialization collaborators consumed by this layer.  Functions that can
throw in the collaborator (constructor parses) return Option; a none
result stands for a thrown failure. -/
structure Crypto where
  deriveChild : String → String → String
  createMultisig : List String → Nat → String → String
  fromPublicKey : String → String → String
  parsePubKey : String → Option String
  parseSig : String → Option String
  ecdsaVerify : String → String → String → Option Bool
  hashMsg : String → String
  privToPub : String → Option String
  sha256hex : String → String
  hdRequestPubKey : String → String
  sjclDecrypt : String → String → Option String
  serializeTx : Tx → String

/-- Defaults.MAX_TX_FEE = 1 * Defaults.COIN with Defaults.COIN = 1e8. -/
def MAX_TX_FEE : Int := 100000000

/-- Defaults.COIN as a rational, for the unit-scaling helper. -/
def COINQ : Rat := 100000000

/-- Embedding of Utils.decryptMessage: sjcl.decrypt inside a try block;
on any failure the raw ciphertext argument itself is returned. -/
def decryptMessage (C : Crypto) (cyphertextJson : String) (encryptingKey : String) : String :=
  match C.sjclDecrypt encryptingKey cyphertextJson with
  | some plain => plain
  | none => cyphertextJson

/-- Utils.decryptMessage applied to a possibly absent message field: an
absent argument makes sjcl.decrypt throw, and the catch block returns the
absent argument unchanged. -/
def decryptMessageOpt (C : Crypto) (cyphertextJson : Option String) (encryptingKey : String) : Option String :=
  match cyphertextJson with
  | none => none
  | some c => some (decryptMessage C c encryptingKey)

/-- Embedding of Utils.verifyMessage.  checkArgument on text and pubKey
throw precondition errors for falsy arguments; a falsy signature returns
false; the PublicKey constructor runs outside the try block, so a public
key that fails to parse escapes as a thrown error; signature parsing and
ECDSA verification run inside the try block, so their failures yield
false. -/
def verifyMessage (C : Crypto) (text : String) (signature : Option String) (pubKey : String) : Except VErr Bool :=
  if text == "" then Except.error VErr.precondition
  else if pubKey == "" then Except.error VErr.precondition
  else if !(truthyS signature) then Except.ok false
  else
    match C.parsePubKey pubKey with
    | none => Except.error VErr.thrown
    | some pub =>
      match C.parseSig (signature.getD "") with
      | none => Except.ok false
      | some sig =>
        match C.ecdsaVerify (C.hashMsg text) sig pub with
        | none => Except.ok false
        | some b => Except.ok b

/-- Embedding of Utils.getCopayerHash: join of the three fields with a
pipe separator. -/
def getCopayerHash (name xPubKey requestPubKey : String) : String :=
  name ++ "|" ++ xPubKey ++ "|" ++ requestPubKey

/-- Embedding of Utils.xPubToCopayerId: hex-encoded sha256 of the
extended public key, delegated to the collaborator. -/
def xPubToCopayerId (C : Crypto) (xpub : String) : String :=
  C.sha256hex xpub

/-- Embedding of Utils.verifyRequestPubKey: verify the one-time request
key signature against the request-auth child key derived from the
creator extended public key. -/
def verifyRequestPubKey (C : Crypto) (requestPubKey : String) (signature : Option String) (xPubKey : String) : Except VErr Bool :=
  verifyMessage C requestPubKey signature (C.hdRequestPubKey xPubKey)

/-- Embedding of Utils.deriveAddress: derive one child public key per
ring entry, then build a multisig script-hash address for P2SH or, for
P2PKH, require exactly one derived key (checkState, thrown as a
precondition failure otherwise) and build a pay-to-pubkey-hash address. -/
def deriveAddress (C : Crypto) (scriptType : ScriptType) (publicKeyRing : List RingEntry) (path : String) (m : Nat) (network : String) : Except VErr DerivedAddress :=
  let publicKeys := publicKeyRing.map (fun item => C.deriveChild item.xPubKey path)
  match scriptType with
  | ScriptType.P2SH =>
    Except.ok { address := C.createMultisig publicKeys m network, path := path, publicKeys := publicKeys }
  | ScriptType.P2PKH =>
    if publicKeys.length == 1 then
      Except.ok { address := C.fromPublicKey (publicKeys.headD "") network, path := path, publicKeys := publicKeys }
    else Except.error VErr.precondition

/-- The output-adding loop of Utils.buildTx over txp.outputs: each output
must carry a truthy script or a truthy toAddress (checkState), an
explicit script wins over an address, and the declared amount becomes the
satoshis of the built output. -/
def outputsFromSpecs : List OutputSpec → Except VErr (List TxOut)
  | [] => Except.ok []
  | o :: rest =>
    if truthyS o.script || truthyS o.toAddress then
      match outputsFromSpecs rest with
      | Except.error e => Except.error e
      | Except.ok outs =>
        Except.ok ((if truthyS o.script then
                      TxOut.mk (TxDest.fromScript (o.script.getD "")) o.amount
                    else
                      TxOut.mk (TxDest.fromAddress (o.toAddress.getD "")) o.amount) :: outs)
    else Except.error VErr.precondition

/-- Sum of the satoshis fields of the proposal inputs, as recomputed by
Utils.buildTx with a lodash reduce. -/
def totalInputSat (txp : Txp) : Int :=
  txp.inputs.foldl (fun memo i => i.satoshis + memo) 0

/-- Sum of the satoshis of a list of built outputs, as recomputed by
Utils.buildTx with a lodash reduce. -/
def sumSat (outs : List TxOut) : Int :=
  outs.foldl (fun memo o => o.satoshis + memo) 0

/-- The output stage of Utils.buildTx: a single pay-to-address output
when toAddress and amount are truthy and no outputs array is given,
otherwise the declared outputs array when present. -/
def addOutputsStage (txp : Txp) : Except VErr (List TxOut) :=
  if truthyS txp.toAddress && truthyN txp.amount && txp.outputs.isNone then
    Except.ok [TxOut.mk (TxDest.fromAddress (txp.toAddress.getD "")) (txp.amount.getD 0)]
  else
    match txp.outputs with
    | some outs => outputsFromSpecs outs
    | none => Except.ok []

/-- Modelled from the spec for the external transaction-assembly
collaborator (section 4.4 step 4 and section 6): when a change address is
declared, t.change together with the explicitly set fee materializes a
change output carrying the unspent value, inputs minus outputs minus fee,
whenever that value is positive. -/
def changeStage (txp : Txp) (outs : List TxOut) : List TxOut :=
  match txp.changeAddress with
  | none => outs
  | some ca =>
    let unspent := totalInputSat txp - sumSat outs - txp.fee
    if 0 < unspent then outs ++ [TxOut.mk (TxDest.fromAddress ca.address) unspent] else outs

/-- The output-reordering stage of Utils.buildTx: with more than one
output, reject the entries of txp.outputOrder that are at least the
output count, require the filtered order to have exactly as many entries
as there are outputs (checkState), and place at position j the output
whose index appears at position j of the filtered order.  With one or
zero outputs nothing happens. -/
def reorderStage (txp : Txp) (outs : List TxOut) : Except VErr (List TxOut) :=
  if 1 < outs.length then
    let ord := txp.outputOrder.filter (fun o => !(decide (outs.length ≤ o)))
    if outs.length == ord.length then
      Except.ok (ord.map (fun i => outs.getD i default))
    else Except.error VErr.precondition
  else Except.ok outs

/-- Outputs of the reconstructed transaction after the adding and change
stages, before reordering. -/
def addChangeOutputs (txp : Txp) : Except VErr (List TxOut) :=
  match addOutputsStage txp with
  | Except.error e => Except.error e
  | Except.ok outs => Except.ok (changeStage txp outs)

/-- Outputs of the reconstructed transaction after all three stages of
Utils.buildTx that shape the output list. -/
def buildTxOutputs (txp : Txp) : Except VErr (List TxOut) :=
  match addChangeOutputs txp with
  | Except.error e => Except.error e
  | Except.ok outs => reorderStage txp outs

/-- Embedding of Utils.buildTx: reconstruct the output list, then enforce
the two checkState fee bounds over the independently recomputed totals,
namely that inputs minus outputs is nonnegative and at most
Defaults.MAX_TX_FEE. -/
def buildTx (txp : Txp) : Except VErr Tx :=
  match buildTxOutputs txp with
  | Except.error e => Except.error e
  | Except.ok outs =>
    if 0 ≤ totalInputSat txp - sumSat outs then
      if totalInputSat txp - sumSat outs ≤ MAX_TX_FEE then
        Except.ok { inputs := txp.inputs, outputs := outs, fee := txp.fee }
      else Except.error VErr.precondition
    else Except.error VErr.precondition

/-- Embedding of Verifier.checkAddress: checkState requires complete
credentials; the address is re-derived using the script type declared by
the server-supplied address object when present, falling back to the
local credentials addressType only when the object carries none (both
script type strings are nonempty, hence truthy, in the source); the check
passes when the derived address string equals the declared one and the
lodash difference of the derived keys minus the declared keys is empty. -/
def checkAddress (C : Crypto) (cred : Credentials) (addr : AddressObj) : Except VErr Bool :=
  if !cred.isComplete then Except.error VErr.precondition
  else
    match deriveAddress C (addr.type.getD cred.addressType) cred.publicKeyRing addr.path cred.m cred.network with
    | Except.error e => Except.error e
    | Except.ok localAddr =>
      Except.ok (localAddr.address == addr.address &&
        (localAddr.publicKeys.filter (fun k => decide (k ∉ addr.publicKeys))).length == 0)

/-- JavaScript ToNumber on the value of a possibly absent numeric
property cell: an absent property (undefined) coerces to NaN.  NaN is
represented by the inner none. -/
def jsToNumber : Option (Option Rat) → Option Rat
  | none => none
  | some v => v

/-- JavaScript truthiness of a number-or-NaN value: NaN and zero are
falsy. -/
def jsTruthyNum : Option Rat → Bool
  | none => false
  | some q => !(q == 0)

/-- The per-copayer loop of Verifier.checkCopayers.  The duplicate test
of the source reads the xPubKey property of the copayers array itself
(not of the current element), so every iteration addresses one single
cell of the uniq array, the cell at key undefined; the cell starts absent
and a postfix increment stores NaN into it, so the truthiness test on the
old value, NaN or undefined, can never hold.  The cell and the error flag
are threaded through the recursion; a set error flag makes later
iterations return immediately, and within one iteration the duplicate
test does not cut the field and signature checks short. -/
def copayersLoop (C : Crypto) (walletPubKey : String) : List Copayer → Option (Option Rat) → Bool → Except VErr Bool
  | [], _, err => Except.ok err
  | c :: rest, cell, err =>
    if err then copayersLoop C walletPubKey rest cell err
    else
      let old := jsToNumber cell
      let fires := jsTruthyNum old
      let cell2 : Option (Option Rat) := some (old.map (fun q => q + 1))
      if !(truthyS c.encryptedName || truthyS c.name) || !(truthyS c.xPubKey) ||
         !(truthyS c.requestPubKey) || !(truthyS c.signature) then
        copayersLoop C walletPubKey rest cell2 true
      else
        match verifyMessage C
            (getCopayerHash ((jsOrS c.encryptedName c.name).getD "") (c.xPubKey.getD "") (c.requestPubKey.getD ""))
            c.signature walletPubKey with
        | Except.error e => Except.error e
        | Except.ok v =>
          if !v then copayersLoop C walletPubKey rest cell2 true
          else copayersLoop C walletPubKey rest cell2 fires

/-- Embedding of Verifier.checkCopayers: checkState requires a truthy
walletPrivKey; its public counterpart is the expected signer.  The roster
length must equal credentials.n; the loop checks fields, the broken
duplicate test, and the self-signatures; finally the local extended
public key must occur among the roster xPubKeys. -/
def checkCopayers (C : Crypto) (cred : Credentials) (copayers : List Copayer) : Except VErr Bool :=
  if !(truthyS cred.walletPrivKey) then Except.error VErr.precondition
  else
    match C.privToPub (cred.walletPrivKey.getD "") with
    | none => Except.error VErr.thrown
    | some walletPubKey =>
      if !(copayers.length == cred.n) then Except.ok false
      else
        match copayersLoop C walletPubKey copayers none false with
        | Except.error e => Except.error e
        | Except.ok true => Except.ok false
        | Except.ok false =>
          if (copayers.map (fun c => c.xPubKey)).contains (some cred.xPubKey) then Except.ok true
          else Except.ok false

/-- The per-output comparison loop of Verifier.checkProposalCreation:
address, script and amount must agree, and the stored output message is
compared against the decryption of the submitted output message. -/
def proposalOutputsMatch (C : Crypto) (encryptingKey : String) : List OutputSpec → List OutputSpec → Bool
  | [], [] => true
  | o1 :: r1, o2 :: r2 =>
    strEqual o1.toAddress o2.toAddress &&
    strEqual o1.script o2.script &&
    o1.amount == o2.amount &&
    strEqual o1.message (decryptMessageOpt C o2.message encryptingKey) &&
    proposalOutputsMatch C encryptingKey r1 r2
  | _, _ => false

/-- Embedding of Verifier.checkProposalCreation: compare output count,
per-output fields with decrypted messages, change address, fee per KB,
payment-protocol URL, the decrypted overall message and the custom data;
any discrepancy yields false.  Reading the length of an absent stored
outputs array throws. -/
def checkProposalCreation (C : Crypto) (args : SubmitArgs) (txp : Txp) (encryptingKey : String) : Except VErr Bool :=
  match txp.outputs with
  | none => Except.error VErr.thrown
  | some touts =>
    if !(touts.length == args.outputs.length) then Except.ok false
    else if !(proposalOutputsMatch C encryptingKey touts args.outputs) then Except.ok false
    else if truthyS args.changeAddress &&
            !(strEqual (txp.changeAddress.map (fun a => a.address)) args.changeAddress) then Except.ok false
    else if args.feePerKb.isSome && !(txp.feePerKb == args.feePerKb) then Except.ok false
    else if !(strEqual txp.payProUrl args.payProUrl) then Except.ok false
    else if !(strEqual txp.message (decryptMessageOpt C args.message encryptingKey)) then Except.ok false
    else if truthyS args.customData && !(txp.customData == args.customData) then Except.ok false
    else Except.ok true

/-- The signer-key establishment step of Verifier.checkTxProposalSignature:
with a truthy self-supplied proposalSignaturePubKey, its own signature
must verify against the request-auth key of the creator, and it becomes
the signer; otherwise the long-term request public key of the creator is
the signer.  An ok none result stands for the early return false of the
source when the self-supplied key fails to verify. -/
def establishSigner (C : Crypto) (creatorKeys : RingEntry) (txp : Txp) : Except VErr (Option String) :=
  if truthyS txp.proposalSignaturePubKey then
    match verifyRequestPubKey C (txp.proposalSignaturePubKey.getD "") txp.proposalSignaturePubKeySig creatorKeys.xPubKey with
    | Except.error e => Except.error e
    | Except.ok false => Except.ok none
    | Except.ok true => Except.ok (some (txp.proposalSignaturePubKey.getD ""))
  else Except.ok (some creatorKeys.requestPubKey)

/-- Embedding of Verifier.checkTxProposalSignature: checkArgument on
creatorId and checkState on completeness; find the ring entry whose
copayer identifier matches the creator; establish the signer key; for a
current-format proposal rebuild the transaction, verify the proposal
signature over its serialization, and re-check the change address; a
legacy proposal, version below 3, is rejected with its own distinct
error. -/
def checkTxProposalSignature (C : Crypto) (cred : Credentials) (txp : Txp) : Except VErr Bool :=
  if txp.creatorId == "" then Except.error VErr.precondition
  else if !cred.isComplete then Except.error VErr.precondition
  else
    match cred.publicKeyRing.find? (fun item => xPubToCopayerId C item.xPubKey == txp.creatorId) with
    | none => Except.ok false
    | some creatorKeys =>
      match establishSigner C creatorKeys txp with
      | Except.error e => Except.error e
      | Except.ok none => Except.ok false
      | Except.ok (some key) =>
        if key == "" then Except.ok false
        else if 3 ≤ txp.version then
          match buildTx txp with
          | Except.error e => Except.error e
          | Except.ok t =>
            match verifyMessage C (C.serializeTx t) (some txp.proposalSignature) key with
            | Except.error e => Except.error e
            | Except.ok false => Except.ok false
            | Except.ok true =>
              match txp.changeAddress with
              | none => Except.error VErr.thrown
              | some ca =>
                match checkAddress C cred ca with
                | Except.error e => Except.error e
                | Except.ok b => Except.ok b
        else Except.error VErr.unsupported

/-- Embedding of Verifier.checkPaypro: for a current-format proposal the
compared destination is the toAddress of the first declared output while
the compared amount is the top-level amount field of the proposal; for a
legacy proposal both come from the top level.  Reading the first output
of an absent or empty outputs array throws. -/
def checkPaypro (txp : Txp) (payproOpts : PayproOpts) : Except VErr Bool :=
  if 3 ≤ txp.version then
    match txp.outputs with
    | some (o :: _) =>
      Except.ok ((o.toAddress == some payproOpts.toAddress) && (txp.amount == some payproOpts.amount))
    | some [] => Except.error VErr.thrown
    | none => Except.error VErr.thrown
  else
    Except.ok ((txp.toAddress == some payproOpts.toAddress) && (txp.amount == some payproOpts.amount))

/-- Embedding of Verifier.checkTxProposal: the signature check and, when
a payment-protocol target is supplied, the paypro check. -/
def checkTxProposal (C : Crypto) (cred : Credentials) (txp : Txp) (paypro : Option PayproOpts) : Except VErr Bool :=
  match checkTxProposalSignature C cred txp with
  | Except.error e => Except.error e
  | Except.ok false => Except.ok false
  | Except.ok true =>
    match paypro with
    | none => Except.ok true
    | some p =>
      match checkPaypro txp p with
      | Except.error e => Except.error e
      | Except.ok b => Except.ok b

/-- An output record of the options object rescaled by
Utils.convertTxpSatoshiToCoinProtocol. -/
structure ConvOutput where
  amount : Option Rat
  toAddress : Option String
deriving DecidableEq, Repr

/-- An input record of the options object rescaled by
Utils.convertTxpSatoshiToCoinProtocol. -/
structure ConvInput where
  satoshis : Option Rat
deriving DecidableEq, Repr

/-- The options object passed to Utils.convertTxpSatoshiToCoinProtocol. -/
structure ConvertOpts where
  feeLevel : Option Rat
  feePerKb : Option Rat
  fee : Option Rat
  amount : Option Rat
  outputs : Option (List ConvOutput)
  inputs : Option (List ConvInput)
deriving DecidableEq, Repr

/-- Embedding of Utils.convertTxpSatoshiToCoinProtocol: both scale
parameters default to Defaults.COIN when falsy; every numeric field among
feeLevel, feePerKb, fee, the output amounts, the input satoshis and the
truthy top-level amount is multiplied by the scale, which is one over
fromSatToCoin divided by toSatToCoin; in the source these products are
assigned back onto the fields of the opts argument itself, which is then
returned.  JavaScript floating-point products are modelled as exact
rational products. -/
def convertTxpSatoshiToCoinProtocol (opts : ConvertOpts) (fromSatToCoin toSatToCoin : Option Rat) : ConvertOpts :=
  let f := if jsTruthyNum fromSatToCoin then fromSatToCoin.getD COINQ else COINQ
  let t := if jsTruthyNum toSatToCoin then toSatToCoin.getD COINQ else COINQ
  let r := 1 / (f / t)
  { feeLevel := opts.feeLevel.map (fun q => q * r)
    feePerKb := opts.feePerKb.map (fun q => q * r)
    fee := opts.fee.map (fun q => q * r)
    amount := if jsTruthyNum opts.amount then opts.amount.map (fun q => q * r) else opts.amount
    outputs := opts.outputs.map (fun l => l.map (fun o => { o with amount := o.amount.map (fun q => q * r) }))
    inputs := opts.inputs.map (fun l => l.map (fun i => { i with satoshis := i.satoshis.map (fun q => q * r) })) }

/-!
Concrete instances used by witnesses, counterexamples and failing-input
evaluations.  The toy collaborator below is one admissible behaviour of
the external crypto provider: string concatenation stands for key
derivation and address construction, parsing fails exactly on designated
markers, and a fixed designated signature verifies.
-/

/-- A concrete instantiation of the external collaborator record, used to
evaluate the embedded code at specific inputs. -/
def toyCrypto : Crypto where
  deriveChild := fun xpub path => xpub ++ "/" ++ path
  createMultisig := fun keys m net => String.intercalate "," keys ++ ":" ++ toString m ++ ":" ++ net
  fromPublicKey := fun k net => k ++ "@" ++ net
  parsePubKey := fun s => if s == "badkey" then none else some s
  parseSig := fun s => if s == "badsig" then none else some s
  ecdsaVerify := fun _ s _ => some (s == "goodsig")
  hashMsg := fun t => t
  privToPub := fun p => some ("pub:" ++ p)
  sha256hex := fun s => "id:" ++ s
  hdRequestPubKey := fun x => "req:" ++ x
  sjclDecrypt := fun _ _ => none
  serializeTx := fun _ => "rawtx"

/-- A baseline proposal with neutral fields, adjusted per instance. -/
def txp0 : Txp :=
  { version := 3
    creatorId := ""
    addressType := ScriptType.P2SH
    requiredSignatures := 2
    inputs := []
    toAddress := none
    amount := none
    outputs := none
    fee := 0
    changeAddress := none
    outputOrder := []
    proposalSignature := ""
    proposalSignaturePubKey := none
    proposalSignaturePubKeySig := none
    message := none
    payProUrl := none
    feePerKb := none
    customData := none }

/-- Complete two-of-two credentials used by several evaluations. -/
def cred2 : Credentials :=
  { network := "net"
    addressType := ScriptType.P2SH
    m := 2
    n := 2
    publicKeyRing := [⟨"x1", "r1"⟩, ⟨"x2", "r2"⟩]
    walletPrivKey := some "wpk"
    xPubKey := "x1" }

/-- The proposal of the fee-bound witness: one input of one hundred
million satoshis, one declared output of 99990000 satoshis, fee ten
thousand, matching the worked example of the specification. -/
def txpFee : Txp :=
  { txp0 with
    inputs := [⟨100000000, []⟩]
    outputs := some [{ toAddress := some "A", script := none, message := none, amount := 99990000 }]
    fee := 10000 }

/-- The built output list of the fee-bound witness proposal. -/
def outsFee : List TxOut := [⟨TxDest.fromAddress "A", 99990000⟩]

/-!
Claim C1.
-/

/-- Claim C1: for every proposal whose output list reconstructs, buildTx
succeeds, and returns exactly the reconstructed outputs, if and only if
the totals recomputed from the proposal inputs and the reconstructed
outputs satisfy zero at most inputs minus outputs at most MAX_TX_FEE;
outside that range the call fails. -/
theorem buildTx_fee_bound (txp : Txp) (outs : List TxOut)
    (h : buildTxOutputs txp = Except.ok outs) :
    (∃ t, buildTx txp = Except.ok t ∧ t.outputs = outs) ↔
      (0 ≤ totalInputSat txp - sumSat outs ∧ totalInputSat txp - sumSat outs ≤ MAX_TX_FEE) := by
  unfold buildTx
  rw [h]
  dsimp only
  constructor
  · rintro ⟨t, ht, -⟩
    by_cases h1 : 0 ≤ totalInputSat txp - sumSat outs
    · by_cases h2 : totalInputSat txp - sumSat outs ≤ MAX_TX_FEE
      · exact ⟨h1, h2⟩
      · rw [if_pos h1, if_neg h2] at ht; cases ht
    · rw [if_neg h1] at ht; cases ht
  · rintro ⟨h1, h2⟩
    rw [if_pos h1, if_pos h2]
    exact ⟨_, rfl, rfl⟩

/-- Claim C1 witness: the worked example of the specification, inputs
summing to one hundred million and outputs to 99990000, an implied fee of
ten thousand, builds successfully. -/
theorem buildTx_fee_bound_witness :
    buildTxOutputs txpFee = Except.ok outsFee ∧
      ∃ t, buildTx txpFee = Except.ok t ∧ t.outputs = outsFee :=
  ⟨rfl, (buildTx_fee_bound txpFee outsFee rfl).mpr (by decide)⟩

/-!
Claim C5.
-/

/-- First declared output used by the reordering witness. -/
def oA : OutputSpec := { toAddress := some "A1", script := none, message := none, amount := 1 }

/-- Second declared output used by the reordering witness. -/
def oB : OutputSpec := { toAddress := some "A2", script := none, message := none, amount := 2 }

/-- Two-output proposal whose order array swaps the outputs. -/
def txpOrd : Txp := { txp0 with outputs := some [oA, oB], outputOrder := [1, 0], inputs := [⟨3, []⟩] }

/-- Two-output proposal whose filtered order array is too short. -/
def txpOrdBad : Txp := { txp0 with outputs := some [oA, oB], outputOrder := [0], inputs := [⟨3, []⟩] }

/-- One-output proposal, exempt from reordering. -/
def txpOne : Txp := { txp0 with outputs := some [oA], inputs := [⟨1, []⟩] }

/-- The unordered built outputs of the two-output witness proposals. -/
def outsAB : List TxOut := [⟨TxDest.fromAddress "A1", 1⟩, ⟨TxDest.fromAddress "A2", 2⟩]

/-- Claim C5: for a proposal whose pre-reordering output list has more
than one entry, buildTx keeps exactly the order entries below the output
count, requires the filtered order to have one entry per output and fails
otherwise, and places output i at the position where i occurs in the
filtered order; with one or zero outputs the list passes through
unchanged. -/
theorem buildTx_output_order (txp : Txp) (outs1 : List TxOut)
    (h : addChangeOutputs txp = Except.ok outs1) :
    (1 < outs1.length →
      ((txp.outputOrder.filter (fun o => !(decide (outs1.length ≤ o)))).length = outs1.length →
        buildTxOutputs txp =
          Except.ok ((txp.outputOrder.filter (fun o => !(decide (outs1.length ≤ o)))).map
            (fun i => outs1.getD i default)) ∧
        ∀ j i, (txp.outputOrder.filter (fun o => !(decide (outs1.length ≤ o)))).get? j = some i →
          ((txp.outputOrder.filter (fun o => !(decide (outs1.length ≤ o)))).map
            (fun i => outs1.getD i default)).get? j = outs1.get? i) ∧
      ((txp.outputOrder.filter (fun o => !(decide (outs1.length ≤ o)))).length ≠ outs1.length →
        buildTx txp = Except.error VErr.precondition)) ∧
    (outs1.length ≤ 1 → buildTxOutputs txp = Except.ok outs1) := by
  have hbo : buildTxOutputs txp = reorderStage txp outs1 := by
    unfold buildTxOutputs
    rw [h]
  refine ⟨fun hgt => ⟨fun hlen => ⟨?_, ?_⟩, fun hne => ?_⟩, fun hle => ?_⟩
  · rw [hbo]
    simp only [reorderStage, hgt, if_true, hlen, beq_self_eq_true, if_pos]
  · intro j i hj
    have hmem : i ∈ txp.outputOrder.filter (fun o => !(decide (outs1.length ≤ o))) :=
      List.get?_mem hj
    have hpred := (List.mem_filter.mp hmem).2
    have hi : i < outs1.length := by
      have hp : ¬ outs1.length ≤ i := by simpa using hpred
      omega
    rw [List.get?_map, hj]
    simp [List.getD_eq_get?, List.getElem?_eq_getElem hi]
  · have hro : reorderStage txp outs1 = Except.error VErr.precondition := by
      simp only [reorderStage, hgt, if_true]
      rw [if_neg]
      simp only [beq_iff_eq]
      omega
    have hout : buildTxOutputs txp = Except.error VErr.precondition := by
      rw [hbo, hro]
    unfold buildTx
    rw [hout]
  · rw [hbo]
    simp [reorderStage, Nat.not_lt.mpr hle]

/-- Claim C5 witness: the order [1, 0] swaps a two-output list, a
filtered order of length one on a two-output list makes the build fail,
and a single output passes through unchanged. -/
theorem buildTx_output_order_witness :
    buildTxOutputs txpOrd = Except.ok [⟨TxDest.fromAddress "A2", 2⟩, ⟨TxDest.fromAddress "A1", 1⟩] ∧
    buildTx txpOrdBad = Except.error VErr.precondition ∧
    buildTxOutputs txpOne = Except.ok [⟨TxDest.fromAddress "A1", 1⟩] :=
  ⟨(((buildTx_output_order txpOrd outsAB rfl).1 (by decide)).1 (by decide)).1,
   ((buildTx_output_order txpOrdBad outsAB rfl).1 (by decide)).2 (by decide),
   (buildTx_output_order txpOne [⟨TxDest.fromAddress "A1", 1⟩] rfl).2 (by decide)⟩

/-!
Claims C2 and C10.
-/

/-- A server-supplied address whose key list carries one key beyond the
derived set; the address string itself is the genuine multisig address of
the toy collaborator. -/
def addrExtra : AddressObj :=
  { address := "x1/p,x2/p:2:net"
    path := "p"
    type := some ScriptType.P2SH
    publicKeys := ["x1/p", "x2/p", "EXTRA"] }

/-- The genuinely derived address record for cred2 at path p under the
toy collaborator. -/
def daDerived : DerivedAddress :=
  { address := "x1/p,x2/p:2:net", path := "p", publicKeys := ["x1/p", "x2/p"] }

/-- Claim C2 counterexample: checkAddress accepts an address object whose
publicKeys list strictly contains the derived key set; the lodash
difference in the source only checks that every derived key occurs among
the supplied ones, so the extra key EXTRA is not rejected and the claimed
set-equality requirement fails. -/
theorem checkAddress_accepts_extra_key :
    checkAddress toyCrypto cred2 addrExtra = Except.ok true ∧
    deriveAddress toyCrypto ScriptType.P2SH cred2.publicKeyRing "p" 2 "net" = Except.ok daDerived ∧
    "EXTRA" ∈ addrExtra.publicKeys ∧ "EXTRA" ∉ daDerived.publicKeys :=
  ⟨rfl, rfl, by decide, by decide⟩

/-- Claim C2 as amended: with complete credentials and a successful
derivation, checkAddress returns true exactly when the derived address
string equals the declared one and every derived public key occurs in the
declared key list; containment in the other direction is not required, so
declared lists with extra keys are accepted. -/
theorem checkAddress_subset_iff (C : Crypto) (cred : Credentials) (addr : AddressObj) (da : DerivedAddress)
    (hc : cred.isComplete = true)
    (hd : deriveAddress C (addr.type.getD cred.addressType) cred.publicKeyRing addr.path cred.m cred.network = Except.ok da) :
    (checkAddress C cred addr = Except.ok true ↔
      (da.address = addr.address ∧ ∀ k ∈ da.publicKeys, k ∈ addr.publicKeys)) := by
  simp only [checkAddress, hc, hd, Bool.not_true, Bool.false_eq_true, if_false,
    Except.ok.injEq, Bool.and_eq_true, beq_iff_eq, List.length_eq_zero,
    List.filter_eq_nil, decide_eq_true_eq, not_not]

/-- Claim C2 witness: the extra-key address of the counterexample is
accepted, via the amended equivalence. -/
theorem checkAddress_subset_iff_witness :
    checkAddress toyCrypto cred2 addrExtra = Except.ok true :=
  (checkAddress_subset_iff toyCrypto cred2 addrExtra daDerived rfl rfl).mpr (by decide)

/-- Claim C10: the script type used by the re-derivation inside
checkAddress is the one declared by the untrusted address object whenever
that field is present, making the result independent of the local
credentials addressType; only when the address object carries no type is
the credentials addressType used as a fallback. -/
theorem checkAddress_type_precedence (C : Crypto) (cred : Credentials) (addr : AddressObj) :
    (∀ ty s, addr.type = some ty →
      checkAddress C { cred with addressType := s } addr = checkAddress C cred addr) ∧
    (addr.type = none →
      checkAddress C cred addr = checkAddress C cred { addr with type := some cred.addressType }) := by
  constructor
  · intro ty s hty
    unfold checkAddress
    rw [hty]
    rfl
  · intro hty
    unfold checkAddress
    rw [hty]
    rfl

/-- Address object of the fallback conjunct of the C10 witness. -/
def addrNoType : AddressObj := { addrExtra with type := none }

/-- Claim C10 witness: overriding the credentials addressType does not
change the verdict on an address that declares its own type, and an
address without a type is checked as if it declared the credentials
addressType. -/
theorem checkAddress_type_precedence_witness :
    checkAddress toyCrypto { cred2 with addressType := ScriptType.P2PKH } addrExtra =
      checkAddress toyCrypto cred2 addrExtra ∧
    checkAddress toyCrypto cred2 addrNoType =
      checkAddress toyCrypto cred2 { addrNoType with type := some cred2.addressType } :=
  ⟨(checkAddress_type_precedence toyCrypto cred2 addrExtra).1 ScriptType.P2SH ScriptType.P2PKH rfl,
   (checkAddress_type_precedence toyCrypto cred2 addrNoType).2 rfl⟩

/-!
Claim C3.
-/

/-- Supporting fact for the broken duplicate test of checkCopayers: from
an absent or NaN uniq cell, the truthiness test on the old value is
false, and the post-increment stores NaN back, so the cell stays in the
same shape forever and the repeated-key branch can never be taken. -/
theorem dupCheck_never_fires (cell : Option (Option Rat)) (h : jsToNumber cell = none) :
    jsTruthyNum (jsToNumber cell) = false ∧
      jsToNumber (some ((jsToNumber cell).map (fun q => q + 1))) = none := by
  rw [h]
  exact ⟨rfl, rfl⟩

/-- Closed instance of the supporting fact, at the initial empty cell. -/
theorem dupCheck_never_fires_witness :
    jsTruthyNum (jsToNumber none) = false ∧
      jsToNumber (some ((jsToNumber none).map (fun q => q + 1))) = none :=
  dupCheck_never_fires none rfl

/-- A fully populated, correctly self-signed roster entry whose extended
public key is the local one of cred2. -/
def copE : Copayer :=
  { name := some "a"
    encryptedName := none
    xPubKey := some "x1"
    requestPubKey := some "r1"
    signature := some "goodsig" }

/-- Claim C3 (code-bug evaluation): a roster consisting of the same
entry twice, with the duplicated extended public key x1, is accepted by
checkCopayers.  The source intends to reject repeated keys, but its test
reads the xPubKey property of the copayers array itself, which is
undefined, and the postfix increment of the uniq cell always evaluates to
NaN, which is falsy, so the repeated-key error never fires. -/
theorem checkCopayers_duplicate_xPubKey_accepted :
    checkCopayers toyCrypto cred2 [copE, copE] = Except.ok true ∧
    copE.xPubKey = (some "x1" : Option String) ∧
    cred2.n = 2 :=
  ⟨rfl, rfl, rfl⟩

/-!
Claim C4.
-/

/-- Claim C4 counterexample: a public key whose encoding fails to parse
makes verifyMessage escape with a thrown error instead of returning
false, because the PublicKey constructor runs before the try block of the
source. -/
theorem verifyMessage_bad_pubkey_escapes :
    verifyMessage toyCrypto "msg" (some "sig") "badkey" = Except.error VErr.thrown ∧
    (Except.error VErr.thrown : Except VErr Bool) ≠ Except.ok false ∧
    (Except.error VErr.thrown : Except VErr Bool) ≠ Except.ok true :=
  ⟨rfl, fun h => Except.noConfusion h, fun h => Except.noConfusion h⟩

/-- Claim C4 as amended: once the text and public key are nonempty and
the public-key encoding parses, verifyMessage always returns a boolean;
a missing or empty signature yields false, and a signature that fails to
parse yields false; only an unparsable public key, or an empty text or
public key, escapes as an error. -/
theorem verifyMessage_false_on_failures (C : Crypto) (text : String) (signature : Option String) (pubKey pub : String)
    (ht : text ≠ "") (hp : pubKey ≠ "") (hk : C.parsePubKey pubKey = some pub) :
    (∃ b, verifyMessage C text signature pubKey = Except.ok b) ∧
    (truthyS signature = false → verifyMessage C text signature pubKey = Except.ok false) ∧
    (∀ s, signature = some s → C.parseSig s = none → verifyMessage C text signature pubKey = Except.ok false) := by
  have ht2 : (text == "") = false := beq_eq_false_iff_ne.mpr ht
  have hp2 : (pubKey == "") = false := beq_eq_false_iff_ne.mpr hp
  have main : verifyMessage C text signature pubKey =
      (if !(truthyS signature) then Except.ok false
       else
         match C.parseSig (signature.getD "") with
         | none => Except.ok false
         | some sig =>
           match C.ecdsaVerify (C.hashMsg text) sig pub with
           | none => Except.ok false
           | some b => Except.ok b) := by
    unfold verifyMessage
    simp only [ht2, hp2, hk, Bool.false_eq_true, if_false]
  refine ⟨?_, ?_, ?_⟩
  · rw [main]
    cases hs : truthyS signature with
    | false => exact ⟨false, by simp [hs]⟩
    | true =>
      simp only [hs, Bool.not_true, Bool.false_eq_true, if_false]
      cases hps : C.parseSig (signature.getD "") with
      | none => exact ⟨false, rfl⟩
      | some sig =>
        cases hv : C.ecdsaVerify (C.hashMsg text) sig pub with
        | none => exact ⟨false, by simp [hv]⟩
        | some b => exact ⟨b, by simp [hv]⟩
  · intro hs
    rw [main]
    simp [hs]
  · intro s hsig hps
    subst hsig
    rw [main]
    cases hs : truthyS (some s) with
    | false => simp [hs]
    | true => simp [hs, hps]

/-- Claim C4 witness: with a parsable public key, a signature that fails
to parse yields false rather than an error. -/
theorem verifyMessage_false_on_failures_witness :
    verifyMessage toyCrypto "msg" (some "badsig") "pk" = Except.ok false :=
  (verifyMessage_false_on_failures toyCrypto "msg" (some "badsig") "pk" "pk"
    (by decide) (by decide) rfl).2.2 "badsig" rfl rfl

/-!
Claim C6.
-/

/-- Claim C6: with a nonempty creatorId, complete credentials, a
successful creator lookup in the ring and an established nonempty signer
key, a proposal whose version is below three makes
checkTxProposalSignature escape with the dedicated unsupported error, an
outcome distinct from every boolean verdict and from the precondition
channel. -/
theorem checkTxProposalSignature_legacy_error (C : Crypto) (cred : Credentials) (txp : Txp) (ck : RingEntry)
    (h1 : txp.creatorId ≠ "")
    (h2 : cred.isComplete = true)
    (h3 : cred.publicKeyRing.find? (fun item => xPubToCopayerId C item.xPubKey == txp.creatorId) = some ck)
    (h4 : ∃ key, establishSigner C ck txp = Except.ok (some key) ∧ key ≠ "")
    (h5 : txp.version < 3) :
    checkTxProposalSignature C cred txp = Except.error VErr.unsupported := by
  obtain ⟨key, hkey, hne⟩ := h4
  have h1b : (txp.creatorId == "") = false := beq_eq_false_iff_ne.mpr h1
  have hkb : (key == "") = false := beq_eq_false_iff_ne.mpr hne
  have h5b : ¬ (3 ≤ txp.version) := by omega
  unfold checkTxProposalSignature
  simp only [h1b, h2, Bool.not_true, Bool.false_eq_true, if_false, h3, hkey, hkb]
  rw [if_neg h5b]

/-- A legacy proposal, version one, created by the first ring entry of
cred2, with no self-supplied signing key. -/
def txpLegacy : Txp := { txp0 with version := 1, creatorId := "id:x1" }

/-- Claim C6 witness: the legacy proposal is rejected with the dedicated
unsupported error after lookup and signer establishment succeed. -/
theorem checkTxProposalSignature_legacy_error_witness :
    checkTxProposalSignature toyCrypto cred2 txpLegacy = Except.error VErr.unsupported :=
  checkTxProposalSignature_legacy_error toyCrypto cred2 txpLegacy ⟨"x1", "r1"⟩
    (by decide) rfl rfl ⟨"r1", rfl, by decide⟩ (by decide)

/-!
Claim C7.
-/

/-- An output whose submitted message equals its own undecryptable
ciphertext. -/
def outMsg : OutputSpec := { toAddress := some "A", script := none, message := some "hello", amount := 5 }

/-- Submitted arguments of the C7 counterexample. -/
def argsCtx : SubmitArgs :=
  { outputs := [outMsg], changeAddress := none, feePerKb := none, payProUrl := none,
    message := none, customData := none }

/-- Stored proposal of the C7 counterexample: its stored message equals
the raw submitted ciphertext. -/
def txpCtx : Txp := { txp0 with outputs := some [outMsg] }

/-- Claim C7 counterexample: under a collaborator whose decryption always
fails, decryptMessage returns the ciphertext itself, so it equals the
expected plaintext hello, and checkProposalCreation reports a full match
even though the output message never decrypted; the decryption failure
does not contribute a false result. -/
theorem decryptMessage_failure_can_match :
    toyCrypto.sjclDecrypt "k" "hello" = none ∧
    decryptMessage toyCrypto "hello" "k" = "hello" ∧
    checkProposalCreation toyCrypto argsCtx txpCtx "k" = Except.ok true :=
  ⟨rfl, rfl, rfl⟩

/-- Claim C7 as amended: decryptMessage never escapes and on failure
returns the raw ciphertext unchanged, so inside checkProposalCreation a
failed decryption is detected as a mismatch exactly when the stored
message differs from the raw ciphertext string; when every earlier field
agrees and the stored overall message is not strEqual to the submitted
undecryptable ciphertext, the call returns false. -/
theorem checkProposalCreation_undecryptable_mismatch (C : Crypto) (args : SubmitArgs) (txp : Txp)
    (encryptingKey ct : String) (touts : List OutputSpec)
    (h1 : txp.outputs = some touts)
    (h2 : touts.length = args.outputs.length)
    (h3 : proposalOutputsMatch C encryptingKey touts args.outputs = true)
    (h4 : (truthyS args.changeAddress &&
            !(strEqual (txp.changeAddress.map (fun a => a.address)) args.changeAddress)) = false)
    (h5 : (args.feePerKb.isSome && !(txp.feePerKb == args.feePerKb)) = false)
    (h6 : strEqual txp.payProUrl args.payProUrl = true)
    (h7 : args.message = some ct)
    (h8 : C.sjclDecrypt encryptingKey ct = none)
    (h9 : strEqual txp.message (some ct) = false) :
    decryptMessage C ct encryptingKey = ct ∧
    checkProposalCreation C args txp encryptingKey = Except.ok false := by
  have hdec : decryptMessage C ct encryptingKey = ct := by
    unfold decryptMessage
    rw [h8]
  refine ⟨hdec, ?_⟩
  have h2b : (touts.length == args.outputs.length) = true := beq_iff_eq.mpr h2
  have hdo : decryptMessageOpt C args.message encryptingKey = some ct := by
    rw [h7]
    unfold decryptMessageOpt
    dsimp only
    rw [hdec]
  unfold checkProposalCreation
  rw [h1]
  simp only [h2b, h3, h4, h5, h6, hdo, h9, Bool.not_true, Bool.not_false,
    Bool.false_eq_true, if_false, if_true]

/-- Submitted arguments of the C7 witness: an undecryptable overall
message. -/
def argsMism : SubmitArgs :=
  { outputs := [], changeAddress := none, feePerKb := none, payProUrl := none,
    message := some "zz", customData := none }

/-- Stored proposal of the C7 witness: its stored message differs from
the raw submitted ciphertext. -/
def txpMism : Txp := { txp0 with outputs := some [], message := some "other" }

/-- Claim C7 witness: a stored message that differs from the submitted
undecryptable ciphertext makes checkProposalCreation return false. -/
theorem checkProposalCreation_undecryptable_mismatch_witness :
    decryptMessage toyCrypto "zz" "k" = "zz" ∧
    checkProposalCreation toyCrypto argsMism txpMism "k" = Except.ok false :=
  checkProposalCreation_undecryptable_mismatch toyCrypto argsMism txpMism "k" "zz" []
    rfl rfl rfl rfl rfl rfl rfl rfl rfl

/-!
Claim C8.
-/

/-- A current-format proposal whose first output carries amount five
while the top-level amount field carries seven. -/
def txpPaypro : Txp :=
  { txp0 with
    outputs := some [{ toAddress := some "A", script := none, message := none, amount := 5 }]
    amount := some 7 }

/-- A payment-protocol target demanding amount seven at address A. -/
def ppTarget : PayproOpts := { toAddress := "A", amount := 7 }

/-- Claim C8 counterexample: checkPaypro accepts a proposal whose first
output amount, five, differs from the target amount, seven, because the
compared amount is the top-level amount field of the proposal, not the
amount of the first output. -/
theorem checkPaypro_ignores_first_output_amount :
    checkPaypro txpPaypro ppTarget = Except.ok true ∧
    ((txpPaypro.outputs.getD []).headD ⟨none, none, none, 0⟩).amount = 5 ∧
    ppTarget.amount = 7 ∧ (5 : Int) ≠ 7 :=
  ⟨rfl, rfl, rfl, by decide⟩

/-- Claim C8 as amended: for a current-format proposal with at least one
output, checkPaypro returns true exactly when the toAddress of the first
output equals the target address and the top-level amount field of the
proposal equals the target amount. -/
theorem checkPaypro_amount_from_txp (txp : Txp) (pp : PayproOpts) (o : OutputSpec) (rest : List OutputSpec)
    (hv : 3 ≤ txp.version) (ho : txp.outputs = some (o :: rest)) :
    (checkPaypro txp pp = Except.ok true ↔
      (o.toAddress = some pp.toAddress ∧ txp.amount = some pp.amount)) := by
  unfold checkPaypro
  rw [if_pos hv, ho]
  simp only [Except.ok.injEq, Bool.and_eq_true, beq_iff_eq]

/-- Claim C8 witness: the counterexample proposal satisfies the amended
equivalence. -/
theorem checkPaypro_amount_from_txp_witness :
    checkPaypro txpPaypro ppTarget = Except.ok true :=
  (checkPaypro_amount_from_txp txpPaypro ppTarget
    { toAddress := some "A", script := none, message := none, amount := 5 } []
    (by decide) rfl).mpr ⟨rfl, rfl⟩

/-!
Claim C9.
-/

/-- Eta expansion of a rescaled output record. -/
theorem convOutput_eta (o : ConvOutput) : ConvOutput.mk o.amount o.toAddress = o := rfl

/-- Eta expansion of a rescaled input record. -/
theorem convInput_eta (i : ConvInput) : ConvInput.mk i.satoshis = i := rfl

/-- Options record of the C9 counterexample: a declared fee of one
hundred base units. -/
def optsSc : ConvertOpts :=
  { feeLevel := none, feePerKb := none, fee := some 100, amount := none, outputs := none, inputs := none }

/-- Claim C9 counterexample: converting between the Bitcoin and Peercoin
base-unit scales returns an options record that differs from the supplied
one, the fee having been multiplied by one hundredth; in the source these
rescaled values are assigned onto the fields of the opts argument itself
before that same object is returned, so the call does not leave its
argument unchanged. -/
theorem convert_changes_opts :
    convertTxpSatoshiToCoinProtocol optsSc (some 100000000) (some 1000000) ≠ optsSc ∧
    (convertTxpSatoshiToCoinProtocol optsSc (some 100000000) (some 1000000)).fee = some 1 := by
  constructor
  · intro h
    have h2 := congrArg ConvertOpts.fee h
    simp only [convertTxpSatoshiToCoinProtocol, optsSc, jsTruthyNum, COINQ] at h2
    norm_num at h2
  · simp only [convertTxpSatoshiToCoinProtocol, optsSc, jsTruthyNum, COINQ]
    norm_num

/-- Claim C9 as amended: every verification entry point of this layer is
a pure function of its arguments, but convertTxpSatoshiToCoinProtocol
rescales the numeric fields of its opts argument in place; with both
scale parameters left at their default the rescaling is by one and the
options record passes through unchanged. -/
theorem convert_default_scale_id (opts : ConvertOpts) :
    convertTxpSatoshiToCoinProtocol opts none none = opts := by
  have hr : (1 : Rat) / (COINQ / COINQ) = 1 := by norm_num [COINQ]
  unfold convertTxpSatoshiToCoinProtocol
  simp only [jsTruthyNum, Bool.false_eq_true, if_false, hr, mul_one, Option.map_id',
    convOutput_eta, convInput_eta, List.map_id', ite_self]

end Aloha
